import Mathlib

/-!
Verification of the caching weather service in `server_cache.py`
(repository sugarforever/mcp-openweather).

The stateful core — `WeatherServerContext` with its counters and the
city-keyed cache, plus the `current_weather` tool handler — is embedded
shallowly.  Wall-clock time (`datetime.now()`) is passed explicitly as a
natural-number timestamp; the Python `dict` is modelled as an association
list with the usual lookup / delete-key / overwrite operations; the
upstream HTTP interaction inside `get_weather_from_api` is abstracted as
a function `fetch : String → WeatherResult` supplied by the environment
(the function itself only increments `api_calls` and forwards the
result, exactly as the source does around its network code).  Exceptions
raised by the handler (`ValueError`) are modelled with `Except.error`;
dictionaries returned with an `"error"` key are `WeatherResult.error`.
-/

/-- The normalized weather record built as `formatted_response` in
`get_weather_from_api` (all display fields are formatted strings in the
source; `state` is optional). -/
structure WeatherRecord where
  city : String
  country : String
  state : Option String
  lat : String
  lon : String
  temp_current : String
  temp_feels_like : String
  weather_main : String
  weather_description : String
  weather_icon : String
  humidity : String
  pressure : String
  wind_speed : String
  wind_direction : String
  wind_gust : String
  cloudiness : String
  uvi : String
  visibility : String
  sunrise : String
  sunset : String
  timezone_name : String
  timezone_offset : Int
  timestamp : String
deriving DecidableEq

/-- A value returned by the weather lookup: either a normalized record or
a dictionary of the shape `{"error": msg}`. -/
inductive WeatherResult where
  | record (r : WeatherRecord)
  | error (msg : String)
deriving DecidableEq

/-- `"error" in weather_data` in the source. -/
def WeatherResult.isError : WeatherResult → Bool
  | WeatherResult.record _ => false
  | WeatherResult.error _ => true

/-- `CacheEntry`: data plus expiry timestamp. -/
structure CacheEntry where
  data : WeatherRecord
  expire_at : Nat
deriving DecidableEq

/-- Lookup in the city-keyed dictionary (`city in cache` / `cache[city]`). -/
def cacheLookup : List (String × CacheEntry) → String → Option CacheEntry
  | [], _ => none
  | (k, v) :: rest, c => if k = c then some v else cacheLookup rest c

/-- `del cache[city]`: remove the binding for a city. -/
def cacheDelete : List (String × CacheEntry) → String → List (String × CacheEntry)
  | [], _ => []
  | (k, v) :: rest, c =>
      if k = c then cacheDelete rest c else (k, v) :: cacheDelete rest c

/-- `cache[city] = entry`: unconditional overwrite of the binding. -/
def cacheInsert (m : List (String × CacheEntry)) (c : String) (e : CacheEntry) :
    List (String × CacheEntry) :=
  (c, e) :: cacheDelete m c

/-- Number of bindings a map holds for one city key. -/
def countKey (m : List (String × CacheEntry)) (c : String) : Nat :=
  (m.filter (fun p => p.1 = c)).length

/-- `WeatherServerContext`: API key, the three counters, and the cache. -/
structure WeatherServerContext where
  api_key : String
  api_calls : Nat
  cache_hits : Nat
  cache_misses : Nat
  weather_cache : List (String × CacheEntry)
deriving DecidableEq

/-- `WeatherServerContext.__init__`. -/
def WeatherServerContext.init (api_key : String) : WeatherServerContext :=
  ⟨api_key, 0, 0, 0, []⟩

/-- `WeatherServerContext.get_cached_weather`, with `datetime.now()`
passed in as `now`.  Returns the looked-up data (or `none`) together
with the updated context. -/
def get_cached_weather (ctx : WeatherServerContext) (city : String)
    (now : Nat) : Option WeatherRecord × WeatherServerContext :=
  match cacheLookup ctx.weather_cache city with
  | none => (none, { ctx with cache_misses := ctx.cache_misses + 1 })
  | some entry =>
      if entry.expire_at < now then
        (none, { ctx with
                  cache_misses := ctx.cache_misses + 1,
                  weather_cache := cacheDelete ctx.weather_cache city })
      else
        (some entry.data, { ctx with cache_hits := ctx.cache_hits + 1 })

/-- The fixed TTL: `timedelta(minutes=5)`, in seconds. -/
def ttlSeconds : Nat := 5 * 60

/-- `WeatherServerContext.cache_weather`: store with
`expire_at = now + 5 minutes`. -/
def cache_weather (ctx : WeatherServerContext) (city : String)
    (weather_data : WeatherRecord) (now : Nat) : WeatherServerContext :=
  { ctx with
      weather_cache :=
        cacheInsert ctx.weather_cache city ⟨weather_data, now + ttlSeconds⟩ }

/-- `WeatherServerContext.get_weather_from_api`: increments `api_calls`
and performs the two-step upstream lookup, abstracted as `fetch`; every
outcome (record, "no location found", upstream failure) is returned as
a `WeatherResult`. -/
def get_weather_from_api (ctx : WeatherServerContext) (city : String)
    (fetch : String → WeatherResult) : WeatherResult × WeatherServerContext :=
  (fetch city, { ctx with api_calls := ctx.api_calls + 1 })

/-- `WeatherServer._handle_call_tool`.  `arguments.get("city")` is the
`Option String` argument; `if not city` rejects both `none` and the
empty string by raising `ValueError`, modelled as `Except.error`.  `now`
is the clock at the cache lookup and `now2` the (later) clock at the
cache store. -/
def handle_call_tool (ctx : WeatherServerContext) (name : String)
    (city : Option String) (fetch : String → WeatherResult)
    (now now2 : Nat) : Except String WeatherResult × WeatherServerContext :=
  if name ≠ "current_weather" then
    (Except.error ("未知的工具: " ++ name), ctx)
  else
    match city with
    | none => (Except.error "缺少城市参数", ctx)
    | some c =>
        if c = "" then (Except.error "缺少城市参数", ctx)
        else
          match get_cached_weather ctx c now with
          | (some wd, ctx1) => (Except.ok (WeatherResult.record wd), ctx1)
          | (none, ctx1) =>
              let res := get_weather_from_api ctx1 c fetch
              match res.1 with
              | WeatherResult.record r =>
                  (Except.ok res.1, cache_weather res.2 c r now2)
              | WeatherResult.error _ => (Except.ok res.1, res.2)

/-- The hit rate computed in `weather_lifespan`:
`hits / total * 100 if total > 0 else 0`. -/
def hit_rate_of (hits misses : Nat) : ℚ :=
  if hits + misses > 0 then (hits : ℚ) / ((hits : ℚ) + (misses : ℚ)) * 100
  else 0

/-- The statistics emitted once at shutdown by `weather_lifespan`. -/
structure StatsSummary where
  api_calls : Nat
  cache_hits : Nat
  cache_misses : Nat
  hit_rate : ℚ
deriving DecidableEq

/-- The shutdown summary assembled in the `finally` block of
`weather_lifespan`. -/
def shutdown_summary (ctx : WeatherServerContext) : StatsSummary :=
  ⟨ctx.api_calls, ctx.cache_hits, ctx.cache_misses,
    hit_rate_of ctx.cache_hits ctx.cache_misses⟩

/-- The numeric content of formatting a percentage with one decimal
place (`f-string` `:.1f`): the value in tenths of a percent. -/
def format_tenths (q : ℚ) : ℤ := round (q * 10)

/-- The startup phase of `weather_lifespan`: reads the API-key
environment variable and raises `ValueError` when it is missing or
empty (`if not api_key`); otherwise constructs the context. -/
def weather_lifespan_start (env_api_key : Option String) :
    Except String WeatherServerContext :=
  match env_api_key with
  | none => Except.error "OPENWEATHER_API_KEY 环境变量未设置"
  | some k =>
      if k = "" then Except.error "OPENWEATHER_API_KEY 环境变量未设置"
      else Except.ok (WeatherServerContext.init k)

/-! ### Concrete sample values used to instantiate the theorems -/

/-- A concrete normalized weather record. -/
def sampleRecord : WeatherRecord :=
  ⟨"Paris", "FR", none, "48.86", "2.35", "12.3°C", "11.0°C", "Clouds",
    "overcast clouds", "https://openweathermap.org/img/wn/04d@2x.png",
    "80%", "1013 hPa", "5.1 m/s", "200°", "0 m/s", "90%", "1.2", "10.0 km",
    "07:01:00", "19:12:00", "Europe/Paris", 3600, "2024-01-01T12:00:00"⟩

/-- A second concrete record, distinct from `sampleRecord`. -/
def sampleRecord2 : WeatherRecord :=
  ⟨"Tokyo", "JP", none, "35.68", "139.69", "21.0°C", "20.4°C", "Clear",
    "clear sky", "https://openweathermap.org/img/wn/01d@2x.png",
    "55%", "1018 hPa", "3.0 m/s", "90°", "0 m/s", "0%", "4.0", "10.0 km",
    "05:45:00", "18:30:00", "Asia/Tokyo", 32400, "2024-01-01T20:00:00"⟩

/-- A fresh context, as produced at startup. -/
def sampleCtx : WeatherServerContext := WeatherServerContext.init "key"

/-- A context whose cache holds an entry for `"Paris"` expiring at
time 100. -/
def sampleCtxCached : WeatherServerContext :=
  ⟨"key", 1, 0, 1, [("Paris", ⟨sampleRecord, 100⟩)]⟩

/-- A provider that always fails. -/
def failFetch : String → WeatherResult :=
  fun c => WeatherResult.error ("未找到城市的位置信息: " ++ c)

/-- A provider that always succeeds with `sampleRecord`. -/
def okFetch : String → WeatherResult := fun _ => WeatherResult.record sampleRecord

/-! ### Dictionary lemmas -/

theorem countKey_cons (k : String) (v : CacheEntry)
    (rest : List (String × CacheEntry)) (c : String) :
    countKey ((k, v) :: rest) c =
      (if k = c then 1 else 0) + countKey rest c := by
  by_cases hk : k = c
  · simp [countKey, List.filter_cons, hk, Nat.add_comm]
  · simp [countKey, List.filter_cons, hk]

theorem cacheLookup_delete_self (m : List (String × CacheEntry)) (c : String) :
    cacheLookup (cacheDelete m c) c = none := by
  induction m with
  | nil => rfl
  | cons p rest ih =>
      obtain ⟨k, v⟩ := p
      by_cases hk : k = c
      · simpa [cacheDelete, hk] using ih
      · simp [cacheDelete, cacheLookup, hk, ih]

theorem cacheLookup_delete_ne (m : List (String × CacheEntry)) (c c' : String)
    (h : c' ≠ c) : cacheLookup (cacheDelete m c) c' = cacheLookup m c' := by
  induction m with
  | nil => rfl
  | cons p rest ih =>
      obtain ⟨k, v⟩ := p
      by_cases hk : k = c
      · subst hk
        have hkc' : k ≠ c' := fun hh => h hh.symm
        simp [cacheDelete, cacheLookup, hkc', ih]
      · by_cases hk' : k = c'
        · subst hk'
          simp [cacheDelete, cacheLookup, hk]
        · simp [cacheDelete, cacheLookup, hk, hk', ih]

theorem cacheLookup_insert_self (m : List (String × CacheEntry)) (c : String)
    (e : CacheEntry) : cacheLookup (cacheInsert m c e) c = some e := by
  simp [cacheInsert, cacheLookup]

theorem cacheLookup_insert_ne (m : List (String × CacheEntry)) (c c' : String)
    (e : CacheEntry) (h : c' ≠ c) :
    cacheLookup (cacheInsert m c e) c' = cacheLookup m c' := by
  have hcc' : c ≠ c' := fun hh => h hh.symm
  simp [cacheInsert, cacheLookup, hcc', cacheLookup_delete_ne m c c' h]

theorem countKey_delete_self (m : List (String × CacheEntry)) (c : String) :
    countKey (cacheDelete m c) c = 0 := by
  induction m with
  | nil => rfl
  | cons p rest ih =>
      obtain ⟨k, v⟩ := p
      by_cases hk : k = c
      · simpa [cacheDelete, hk] using ih
      · simp [cacheDelete, hk, countKey_cons, ih]

theorem countKey_delete_ne (m : List (String × CacheEntry)) (c c' : String)
    (h : c' ≠ c) : countKey (cacheDelete m c) c' = countKey m c' := by
  induction m with
  | nil => rfl
  | cons p rest ih =>
      obtain ⟨k, v⟩ := p
      by_cases hk : k = c
      · subst hk
        have hkc' : k ≠ c' := fun hh => h hh.symm
        simp [cacheDelete, countKey_cons, hkc', ih]
      · simp [cacheDelete, hk, countKey_cons, ih]

theorem countKey_insert_self (m : List (String × CacheEntry)) (c : String)
    (e : CacheEntry) : countKey (cacheInsert m c e) c = 1 := by
  simp [cacheInsert, countKey_cons, countKey_delete_self]

theorem countKey_insert_ne (m : List (String × CacheEntry)) (c c' : String)
    (e : CacheEntry) (h : c' ≠ c) :
    countKey (cacheInsert m c e) c' = countKey m c' := by
  have hcc' : c ≠ c' := fun hh => h hh.symm
  simp [cacheInsert, countKey_cons, hcc', countKey_delete_ne m c c' h]

theorem cacheDelete_of_lookup_none (m : List (String × CacheEntry))
    (c : String) (h : cacheLookup m c = none) : cacheDelete m c = m := by
  induction m with
  | nil => rfl
  | cons p rest ih =>
      obtain ⟨k, v⟩ := p
      by_cases hk : k = c
      · simp [cacheLookup, hk] at h
      · simp [cacheLookup, hk] at h
        simp [cacheDelete, hk, ih h]

/-! ### Behaviour of `get_cached_weather` by cases -/

theorem get_cached_weather_cases (ctx : WeatherServerContext) (c : String)
    (now : Nat) :
    (cacheLookup ctx.weather_cache c = none ∧
      get_cached_weather ctx c now =
        (none, { ctx with cache_misses := ctx.cache_misses + 1 })) ∨
    (∃ e, cacheLookup ctx.weather_cache c = some e ∧ e.expire_at < now ∧
      get_cached_weather ctx c now =
        (none, { ctx with
                  cache_misses := ctx.cache_misses + 1,
                  weather_cache := cacheDelete ctx.weather_cache c })) ∨
    (∃ e, cacheLookup ctx.weather_cache c = some e ∧ ¬ e.expire_at < now ∧
      get_cached_weather ctx c now =
        (some e.data, { ctx with cache_hits := ctx.cache_hits + 1 })) := by
  cases hlook : cacheLookup ctx.weather_cache c with
  | none => exact Or.inl ⟨rfl, by simp [get_cached_weather, hlook]⟩
  | some e =>
      by_cases hexp : e.expire_at < now
      · exact Or.inr (Or.inl ⟨e, rfl, hexp, by simp [get_cached_weather, hlook, hexp]⟩)
      · exact Or.inr (Or.inr ⟨e, rfl, hexp, by simp [get_cached_weather, hlook, hexp]⟩)

/-! ### Behaviour of the handler on a miss followed by a failed fetch -/

theorem handle_miss_error (ctx : WeatherServerContext) (c : String)
    (fetch : String → WeatherResult) (now now2 : Nat) (m : String)
    (hc : c ≠ "")
    (hfetch : fetch c = WeatherResult.error m)
    (hmiss : ∀ e, cacheLookup ctx.weather_cache c = some e →
      e.expire_at < now) :
    handle_call_tool ctx "current_weather" (some c) fetch now now2 =
      (Except.ok (WeatherResult.error m),
        { ctx with
            api_calls := ctx.api_calls + 1,
            cache_misses := ctx.cache_misses + 1,
            weather_cache := cacheDelete ctx.weather_cache c }) := by
  cases hlook : cacheLookup ctx.weather_cache c with
  | none =>
      rw [cacheDelete_of_lookup_none ctx.weather_cache c hlook]
      simp [handle_call_tool, get_cached_weather, hlook, hc,
        get_weather_from_api, hfetch]
  | some e =>
      have hexp := hmiss e hlook
      simp [handle_call_tool, get_cached_weather, hlook, hexp, hc,
        get_weather_from_api, hfetch]

/-! ### Claim theorems -/

/-- Claim C2, counterexample to the stated boundary: the source evicts only
when `expire_at < now` (`if entry.expire_at < datetime.now()`), so an entry
whose `expire_at` equals the current time — hence is *not* strictly in the
future — is still returned as a hit and is not removed.  Here the cached
entry for `"Paris"` expires exactly at time 100 and `get` at time 100
returns it. -/
theorem get_boundary_counterexample :
    ¬ 100 < 100 ∧
    (get_cached_weather sampleCtxCached "Paris" 100).1 = some sampleRecord ∧
    cacheLookup (get_cached_weather sampleCtxCached "Paris" 100).2.weather_cache
        "Paris" = some ⟨sampleRecord, 100⟩ ∧
    (get_cached_weather sampleCtxCached "Paris" 100).2.cache_hits =
      sampleCtxCached.cache_hits + 1 :=
  ⟨by omega, rfl, rfl, rfl⟩

/-- Claim C2 (amended): a read that finds an entry whose `expire_at` is
*strictly before* the current time removes it and signals a miss, and every
record the cache returns comes from an entry whose `expire_at` is at or
after the current time (`now ≤ expire_at`, not necessarily strictly
later). -/
theorem get_lazy_eviction (ctx : WeatherServerContext) (c : String)
    (now : Nat) :
    (∀ e, cacheLookup ctx.weather_cache c = some e → e.expire_at < now →
      get_cached_weather ctx c now =
        (none, { ctx with
                  cache_misses := ctx.cache_misses + 1,
                  weather_cache := cacheDelete ctx.weather_cache c })) ∧
    (∀ e, cacheLookup ctx.weather_cache c = some e → e.expire_at < now →
      cacheLookup (get_cached_weather ctx c now).2.weather_cache c = none) ∧
    (∀ d, (get_cached_weather ctx c now).1 = some d →
      ∃ e, cacheLookup ctx.weather_cache c = some e ∧ e.data = d ∧
        now ≤ e.expire_at) := by
  refine ⟨?_, ?_, ?_⟩
  · intro e he hexp
    simp [get_cached_weather, he, hexp]
  · intro e he hexp
    simp [get_cached_weather, he, hexp, cacheLookup_delete_self]
  · intro d hd
    rcases get_cached_weather_cases ctx c now with ⟨_, heq⟩ |
        ⟨e, hl, _, heq⟩ | ⟨e, hl, hexp, heq⟩
    · rw [heq] at hd
      simp at hd
    · rw [heq] at hd
      simp at hd
    · rw [heq] at hd
      simp at hd
      exact ⟨e, hl, hd, Nat.le_of_not_lt hexp⟩

theorem get_lazy_eviction_witness :
    get_cached_weather sampleCtxCached "Paris" 101 =
      (none, { sampleCtxCached with
                cache_misses := sampleCtxCached.cache_misses + 1,
                weather_cache :=
                  cacheDelete sampleCtxCached.weather_cache "Paris" }) :=
  (get_lazy_eviction sampleCtxCached "Paris" 101).1
    ⟨sampleRecord, 100⟩ rfl (by decide)

/-- Claim C3: a request for a city whose cache entry is still fresh
(`now < expire_at`) is answered from the cache: `cache_hits` grows by one,
`api_calls` and `cache_misses` are untouched, the stored record is
returned unchanged, and the cache mapping (hence the entry's `expire_at`)
is not modified. -/
theorem handle_cache_hit (ctx : WeatherServerContext) (c : String)
    (fetch : String → WeatherResult) (now now2 : Nat) (e : CacheEntry)
    (hc : c ≠ "")
    (hfound : cacheLookup ctx.weather_cache c = some e)
    (hfresh : now < e.expire_at) :
    handle_call_tool ctx "current_weather" (some c) fetch now now2 =
      (Except.ok (WeatherResult.record e.data),
        { ctx with cache_hits := ctx.cache_hits + 1 }) ∧
    (handle_call_tool ctx "current_weather" (some c) fetch now
      now2).2.cache_hits = ctx.cache_hits + 1 ∧
    (handle_call_tool ctx "current_weather" (some c) fetch now
      now2).2.api_calls = ctx.api_calls ∧
    (handle_call_tool ctx "current_weather" (some c) fetch now
      now2).2.cache_misses = ctx.cache_misses ∧
    (handle_call_tool ctx "current_weather" (some c) fetch now
      now2).2.weather_cache = ctx.weather_cache := by
  have hnl : ¬ e.expire_at < now := Nat.not_lt.mpr (Nat.le_of_lt hfresh)
  have hmain : handle_call_tool ctx "current_weather" (some c) fetch now now2 =
      (Except.ok (WeatherResult.record e.data),
        { ctx with cache_hits := ctx.cache_hits + 1 }) := by
    simp [handle_call_tool, get_cached_weather, hfound, hnl, hc]
  refine ⟨hmain, ?_, ?_, ?_, ?_⟩ <;> rw [hmain]

theorem handle_cache_hit_witness :
    handle_call_tool sampleCtxCached "current_weather" (some "Paris")
        failFetch 50 60 =
      (Except.ok (WeatherResult.record sampleRecord),
        { sampleCtxCached with
            cache_hits := sampleCtxCached.cache_hits + 1 }) :=
  (handle_cache_hit sampleCtxCached "Paris" failFetch 50 60
    ⟨sampleRecord, 100⟩ (by simp) rfl (by decide)).1

/-- Claim C5: `cache_weather` stores an entry for the city whose
`expire_at` is the current time plus the fixed 5-minute TTL, overwriting
any prior entry for that city unconditionally; afterwards the mapping
holds exactly one binding for that city, other cities are untouched, and
at most one binding per key is preserved. -/
theorem cache_weather_put_semantics (ctx : WeatherServerContext)
    (c : String) (r : WeatherRecord) (now : Nat) :
    ttlSeconds = 5 * 60 ∧
    cacheLookup (cache_weather ctx c r now).weather_cache c =
      some ⟨r, now + ttlSeconds⟩ ∧
    (∀ c', c' ≠ c →
      cacheLookup (cache_weather ctx c r now).weather_cache c' =
        cacheLookup ctx.weather_cache c') ∧
    countKey (cache_weather ctx c r now).weather_cache c = 1 ∧
    ((∀ k, countKey ctx.weather_cache k ≤ 1) →
      ∀ k, countKey (cache_weather ctx c r now).weather_cache k ≤ 1) := by
  refine ⟨rfl, ?_, ?_, ?_, ?_⟩
  · exact cacheLookup_insert_self ctx.weather_cache c ⟨r, now + ttlSeconds⟩
  · intro c' h
    exact cacheLookup_insert_ne ctx.weather_cache c c' ⟨r, now + ttlSeconds⟩ h
  · exact countKey_insert_self ctx.weather_cache c ⟨r, now + ttlSeconds⟩
  · intro hwf k
    by_cases hk : k = c
    · subst hk
      rw [cache_weather, countKey_insert_self]
    · rw [cache_weather, countKey_insert_ne ctx.weather_cache c k _ hk]
      exact hwf k

theorem cache_weather_put_semantics_witness :
    cacheLookup (cache_weather sampleCtxCached "Tokyo" sampleRecord2
        1000).weather_cache "Tokyo" = some ⟨sampleRecord2, 1000 + ttlSeconds⟩ ∧
    cacheLookup (cache_weather sampleCtxCached "Tokyo" sampleRecord2
        1000).weather_cache "Paris" = some ⟨sampleRecord, 100⟩ :=
  ⟨(cache_weather_put_semantics sampleCtxCached "Tokyo" sampleRecord2 1000).2.1,
    ((cache_weather_put_semantics sampleCtxCached "Tokyo" sampleRecord2
      1000).2.2.1 "Paris" (by simp)).trans rfl⟩

/-- Claim C6: the hit rate in the shutdown summary is
`cache_hits / (cache_hits + cache_misses) * 100`, is `0` when no query was
counted, and after 3 hits and 1 miss it is 75.0 percent (750 tenths when
formatted to one decimal place). -/
theorem shutdown_summary_hit_rate :
    (∀ ctx : WeatherServerContext, ctx.cache_hits + ctx.cache_misses = 0 →
      (shutdown_summary ctx).hit_rate = 0 ∧
      format_tenths (shutdown_summary ctx).hit_rate = 0) ∧
    (∀ ctx : WeatherServerContext, 0 < ctx.cache_hits + ctx.cache_misses →
      (shutdown_summary ctx).hit_rate =
        (ctx.cache_hits : ℚ) / ((ctx.cache_hits : ℚ) + (ctx.cache_misses : ℚ))
          * 100) ∧
    (∀ ctx : WeatherServerContext,
      ctx.cache_hits = 3 → ctx.cache_misses = 1 →
      (shutdown_summary ctx).hit_rate = 75 ∧
      format_tenths (shutdown_summary ctx).hit_rate = 750) := by
  refine ⟨?_, ?_, ?_⟩
  · intro ctx h
    constructor
    · simp [shutdown_summary, hit_rate_of, h]
    · simp [shutdown_summary, hit_rate_of, h, format_tenths]
  · intro ctx h
    simp [shutdown_summary, hit_rate_of, h]
  · intro ctx h3 h1
    have hval : (shutdown_summary ctx).hit_rate = 75 := by
      simp [shutdown_summary, hit_rate_of, h3, h1]
      norm_num
    refine ⟨hval, ?_⟩
    rw [hval, format_tenths]
    norm_num [round_eq]

theorem shutdown_summary_hit_rate_witness :
    (shutdown_summary ⟨"key", 1, 3, 1, []⟩).hit_rate = 75 ∧
    format_tenths (shutdown_summary ⟨"key", 1, 3, 1, []⟩).hit_rate = 750 ∧
    (shutdown_summary (WeatherServerContext.init "key")).hit_rate = 0 :=
  ⟨(shutdown_summary_hit_rate.2.2 ⟨"key", 1, 3, 1, []⟩ rfl rfl).1,
    (shutdown_summary_hit_rate.2.2 ⟨"key", 1, 3, 1, []⟩ rfl rfl).2,
    (shutdown_summary_hit_rate.1 (WeatherServerContext.init "key") rfl).1⟩

/-- Claim C7: a request whose city argument is absent or empty is rejected
(the handler raises `ValueError`, an invalid-argument failure) before the
cache or provider is consulted: the whole context — cache mapping and all
three counters — is returned unchanged. -/
theorem handle_rejects_missing_city (ctx : WeatherServerContext)
    (fetch : String → WeatherResult) (now now2 : Nat) :
    handle_call_tool ctx "current_weather" none fetch now now2 =
      (Except.error "缺少城市参数", ctx) ∧
    handle_call_tool ctx "current_weather" (some "") fetch now now2 =
      (Except.error "缺少城市参数", ctx) := by
  constructor <;> simp [handle_call_tool]

/-- Claim C10: operations on one city do not disturb another city's cache
entry: a `get` for `c` and a `put` for `c` leave the binding of any other
city `c'` unchanged; moreover a `get` changes the mapping at most by
deleting an expired entry under `c`, and a `put` rewrites only the binding
under `c`. -/
theorem cache_ops_frame (ctx : WeatherServerContext) (c c' : String)
    (r : WeatherRecord) (now : Nat) (h : c' ≠ c) :
    cacheLookup (get_cached_weather ctx c now).2.weather_cache c' =
      cacheLookup ctx.weather_cache c' ∧
    cacheLookup (cache_weather ctx c r now).weather_cache c' =
      cacheLookup ctx.weather_cache c' ∧
    ((get_cached_weather ctx c now).2.weather_cache = ctx.weather_cache ∨
      (∃ e, cacheLookup ctx.weather_cache c = some e ∧ e.expire_at < now ∧
        (get_cached_weather ctx c now).2.weather_cache =
          cacheDelete ctx.weather_cache c)) := by
  refine ⟨?_, ?_, ?_⟩
  · rcases get_cached_weather_cases ctx c now with ⟨_, heq⟩ |
        ⟨e, hl, hexp, heq⟩ | ⟨e, hl, hexp, heq⟩
    · rw [heq]
    · rw [heq]
      exact cacheLookup_delete_ne ctx.weather_cache c c' h
    · rw [heq]
  · exact cacheLookup_insert_ne ctx.weather_cache c c' _ h
  · rcases get_cached_weather_cases ctx c now with ⟨_, heq⟩ |
        ⟨e, hl, hexp, heq⟩ | ⟨e, hl, hexp, heq⟩
    · rw [heq]
      exact Or.inl rfl
    · rw [heq]
      exact Or.inr ⟨e, hl, hexp, rfl⟩
    · rw [heq]
      exact Or.inl rfl

theorem cache_ops_frame_witness :
    cacheLookup (get_cached_weather sampleCtxCached "Tokyo"
        50).2.weather_cache "Paris" =
      cacheLookup sampleCtxCached.weather_cache "Paris" ∧
    cacheLookup (cache_weather sampleCtxCached "Tokyo" sampleRecord2
        50).weather_cache "Paris" =
      cacheLookup sampleCtxCached.weather_cache "Paris" :=
  ⟨(cache_ops_frame sampleCtxCached "Tokyo" "Paris" sampleRecord2 50
      (by simp)).1,
    (cache_ops_frame sampleCtxCached "Tokyo" "Paris" sampleRecord2 50
      (by simp)).2.1⟩

/-- Claim C1: when the cache misses for `c` (absent or expired entry) and
the provider fetch for `c` returns an error-shaped result, the handler
returns that failure, creates or updates no cache entry for `c` (the
mapping is literally unchanged when `c` was absent; other cities are
untouched), and increments `api_calls` by one; an immediate second
request for `c` therefore reaches the provider again, so two consecutive
failures increment `api_calls` twice. -/
theorem handle_failed_fetch_retry (ctx : WeatherServerContext) (c : String)
    (fetch : String → WeatherResult) (now now2 now3 now4 : Nat) (m : String)
    (hc : c ≠ "")
    (hfetch : fetch c = WeatherResult.error m)
    (hmiss : ∀ e, cacheLookup ctx.weather_cache c = some e →
      e.expire_at < now) :
    (handle_call_tool ctx "current_weather" (some c) fetch now now2).1 =
      Except.ok (WeatherResult.error m) ∧
    cacheLookup (handle_call_tool ctx "current_weather" (some c) fetch now
        now2).2.weather_cache c = none ∧
    (∀ c', c' ≠ c →
      cacheLookup (handle_call_tool ctx "current_weather" (some c) fetch now
          now2).2.weather_cache c' = cacheLookup ctx.weather_cache c') ∧
    (cacheLookup ctx.weather_cache c = none →
      (handle_call_tool ctx "current_weather" (some c) fetch now
        now2).2.weather_cache = ctx.weather_cache) ∧
    (handle_call_tool ctx "current_weather" (some c) fetch now
      now2).2.api_calls = ctx.api_calls + 1 ∧
    (handle_call_tool
        (handle_call_tool ctx "current_weather" (some c) fetch now now2).2
        "current_weather" (some c) fetch now3 now4).1 =
      Except.ok (WeatherResult.error m) ∧
    (handle_call_tool
        (handle_call_tool ctx "current_weather" (some c) fetch now now2).2
        "current_weather" (some c) fetch now3 now4).2.api_calls =
      ctx.api_calls + 2 := by
  have h1 := handle_miss_error ctx c fetch now now2 m hc hfetch hmiss
  have hnone : cacheLookup (handle_call_tool ctx "current_weather" (some c)
      fetch now now2).2.weather_cache c = none := by
    rw [h1]
    exact cacheLookup_delete_self ctx.weather_cache c
  have h2 := handle_miss_error
    (handle_call_tool ctx "current_weather" (some c) fetch now now2).2 c
    fetch now3 now4 m hc hfetch
    (fun e he => by rw [hnone] at he; cases he)
  refine ⟨by rw [h1], hnone, ?_, ?_, by rw [h1], by rw [h2], ?_⟩
  · intro c' h
    rw [h1]
    exact cacheLookup_delete_ne ctx.weather_cache c c' h
  · intro habs
    rw [h1]
    exact cacheDelete_of_lookup_none ctx.weather_cache c habs
  · rw [h2, h1]

theorem handle_failed_fetch_retry_witness :
    (handle_call_tool sampleCtx "current_weather" (some "Paris") failFetch 0
        0).1 =
      Except.ok (WeatherResult.error ("未找到城市的位置信息: " ++ "Paris")) ∧
    cacheLookup (handle_call_tool sampleCtx "current_weather" (some "Paris")
        failFetch 0 0).2.weather_cache "Paris" = none ∧
    (handle_call_tool sampleCtx "current_weather" (some "Paris") failFetch 0
        0).2.api_calls = sampleCtx.api_calls + 1 ∧
    (handle_call_tool (handle_call_tool sampleCtx "current_weather"
        (some "Paris") failFetch 0 0).2 "current_weather" (some "Paris")
        failFetch 1 1).2.api_calls = sampleCtx.api_calls + 2 := by
  have h := handle_failed_fetch_retry sampleCtx "Paris" failFetch 0 0 1 1
    ("未找到城市的位置信息: " ++ "Paris") (by simp) rfl
    (fun e he => by
      simp [sampleCtx, WeatherServerContext.init, cacheLookup] at he)
  exact ⟨h.1, h.2.1, h.2.2.2.2.1, h.2.2.2.2.2.2⟩

/-- Claim C4: every cache read signals exactly one of hit or miss (one of
`cache_hits`/`cache_misses` grows by exactly one and the other is
unchanged, while `api_calls` is untouched by the read), and no operation
of the service — cache read, cache store, API fetch, or the tool handler
itself — ever decreases any of the three counters. -/
theorem stats_one_signal_and_monotone :
    (∀ ctx c now,
      (((get_cached_weather ctx c now).2.cache_hits = ctx.cache_hits + 1 ∧
          (get_cached_weather ctx c now).2.cache_misses =
            ctx.cache_misses) ∨
        ((get_cached_weather ctx c now).2.cache_hits = ctx.cache_hits ∧
          (get_cached_weather ctx c now).2.cache_misses =
            ctx.cache_misses + 1)) ∧
      (get_cached_weather ctx c now).2.api_calls = ctx.api_calls) ∧
    (∀ ctx c r now,
      (cache_weather ctx c r now).api_calls = ctx.api_calls ∧
      (cache_weather ctx c r now).cache_hits = ctx.cache_hits ∧
      (cache_weather ctx c r now).cache_misses = ctx.cache_misses) ∧
    (∀ ctx c fetch,
      (get_weather_from_api ctx c fetch).2.api_calls = ctx.api_calls + 1 ∧
      (get_weather_from_api ctx c fetch).2.cache_hits = ctx.cache_hits ∧
      (get_weather_from_api ctx c fetch).2.cache_misses =
        ctx.cache_misses) ∧
    (∀ ctx name city fetch now now2,
      ctx.api_calls ≤
        (handle_call_tool ctx name city fetch now now2).2.api_calls ∧
      ctx.cache_hits ≤
        (handle_call_tool ctx name city fetch now now2).2.cache_hits ∧
      ctx.cache_misses ≤
        (handle_call_tool ctx name city fetch now now2).2.cache_misses) := by
  refine ⟨?_, ?_, ?_, ?_⟩
  · intro ctx c now
    rcases get_cached_weather_cases ctx c now with ⟨_, heq⟩ |
        ⟨e, _, _, heq⟩ | ⟨e, _, _, heq⟩
    · rw [heq]
      exact ⟨Or.inr ⟨rfl, rfl⟩, rfl⟩
    · rw [heq]
      exact ⟨Or.inr ⟨rfl, rfl⟩, rfl⟩
    · rw [heq]
      exact ⟨Or.inl ⟨rfl, rfl⟩, rfl⟩
  · intro ctx c r now
    exact ⟨rfl, rfl, rfl⟩
  · intro ctx c fetch
    exact ⟨rfl, rfl, rfl⟩
  · intro ctx name city fetch now now2
    by_cases hname : name = "current_weather"
    · subst hname
      cases city with
      | none => simp [handle_call_tool]
      | some c =>
          by_cases hc : c = ""
          · simp [handle_call_tool, hc]
          · rcases get_cached_weather_cases ctx c now with ⟨_, heq⟩ |
                ⟨e, _, _, heq⟩ | ⟨e, _, _, heq⟩ <;>
              cases hfetch : fetch c <;>
              simp [handle_call_tool, hc, heq, get_weather_from_api,
                hfetch, cache_weather]
    · simp [handle_call_tool, hname]

/-- Claim C8, counterexample: a request with a missing city argument is
not answered with a structured `{error: ...}` data value — the handler
raises `ValueError` (`raise ValueError("缺少城市参数")`), modelled as
`Except.error`, so the result is not `Except.ok` of any
`WeatherResult`. -/
theorem handle_missing_city_raises :
    (handle_call_tool sampleCtx "current_weather" none failFetch 0 0).1 =
      Except.error "缺少城市参数" ∧
    (handle_call_tool sampleCtx "current_weather" none failFetch 0
      0).1.isOk = false :=
  ⟨rfl, rfl⟩

/-- Claim C8 (amended): provider-level failures — location not found and
upstream errors — are captured and returned as structured data
(`Except.ok` of an `{error: string}`-shaped `WeatherResult.error`), and
the missing-credential startup error is fatal; but a missing or empty
city argument makes the handler raise `ValueError` (modelled
`Except.error`) instead of returning an error-shaped data value. -/
theorem handle_error_propagation (ctx : WeatherServerContext) (c : String)
    (fetch : String → WeatherResult) (now now2 : Nat) (m : String)
    (hc : c ≠ "")
    (hfetch : fetch c = WeatherResult.error m)
    (hmiss : ∀ e, cacheLookup ctx.weather_cache c = some e →
      e.expire_at < now) :
    (handle_call_tool ctx "current_weather" (some c) fetch now now2).1 =
      Except.ok (WeatherResult.error m) ∧
    (∀ ctx2 : WeatherServerContext, ∀ fetch2 : String → WeatherResult,
      ∀ now3 now4 : Nat,
      handle_call_tool ctx2 "current_weather" none fetch2 now3 now4 =
        (Except.error "缺少城市参数", ctx2) ∧
      handle_call_tool ctx2 "current_weather" (some "") fetch2 now3 now4 =
        (Except.error "缺少城市参数", ctx2)) ∧
    weather_lifespan_start none =
      Except.error "OPENWEATHER_API_KEY 环境变量未设置" := by
  refine ⟨?_, ?_, rfl⟩
  · rw [handle_miss_error ctx c fetch now now2 m hc hfetch hmiss]
  · intro ctx2 fetch2 now3 now4
    constructor <;> simp [handle_call_tool]

theorem handle_error_propagation_witness :
    (handle_call_tool sampleCtx "current_weather" (some "Paris") failFetch 0
        0).1 =
      Except.ok (WeatherResult.error ("未找到城市的位置信息: " ++ "Paris")) ∧
    weather_lifespan_start none =
      Except.error "OPENWEATHER_API_KEY 环境变量未设置" := by
  have h := handle_error_propagation sampleCtx "Paris" failFetch 0 0
    ("未找到城市的位置信息: " ++ "Paris") (by simp) rfl
    (fun e he => by
      simp [sampleCtx, WeatherServerContext.init, cacheLookup] at he)
  exact ⟨h.1, h.2.2⟩
